import Mathlib

/-!
Verification of the phone-OTP / admin authentication core of the
`bolisetti-fast-api` backend.

The remote ZenStack record store is external to the repository; following the
documented gateway contract, each `findMany` call is modelled as the first
`take` rows of the corresponding collection (a "bounded page", cap 1000 or the
default 100), and a transport failure of a call that is caught in the source is
modelled by an `Option`/absent result.  Times are modelled as natural-number
seconds; an ISO timestamp comparison in the source becomes a `Nat` comparison.
JWT signing is abstracted away: a token is its claim payload, and decoding
succeeds exactly when the token is unexpired (the `jwt.decode` of the source
validates the signature and `exp`; all tokens considered here are ones the
server itself minted, hence correctly signed).
-/

namespace BolisettiAuth

/-- A row of the `User` collection (`phoneNumber`, `voterId`, `isActive` as
used by the authentication flow). -/
structure UserRow where
  id : String
  phoneNumber : String
  voterId : String
  isActive : Bool
deriving DecidableEq

/-- A row of the `VoterId` registry collection. -/
structure VoterRow where
  id : String
  voterId : String
  isActive : Bool
deriving DecidableEq

/-- A row of the `OTP` collection. -/
structure OTPRow where
  id : String
  phoneNumber : String
  otp : String
  expiresAt : Nat
  isUsed : Bool
  createdAt : Nat
deriving DecidableEq

/-- A row of the `Session` collection. -/
structure SessionRow where
  id : String
  userId : String
  phoneNumber : String
  expiresAt : Nat
  isActive : Bool
deriving DecidableEq

/-- A row of the `Admin` collection. -/
structure AdminRow where
  id : String
  email : String
  password : String
  isActive : Bool
  lastLogin : Option Nat
deriving DecidableEq

/-- A JWT payload.  The citizen login mints `{userId, phoneNumber, exp}`, the
admin login mints `{adminId, email, userType:"admin", exp}`; absent claims are
`none` (`payload.get` in the source returns `None` for them). -/
structure Payload where
  userId : Option String
  phoneNumber : Option String
  adminId : Option String
  email : Option String
  userType : Option String
  exp : Nat
deriving DecidableEq

/-! ## Record Store Gateway (`app/zenstack_client.py`) -/

/-- `ZenStackClient.get_user_by_phone` (zenstack_client.py:99-110): fetch a
page of up to 1000 `User` rows and return the first with the phone number. -/
def zen_get_user_by_phone (users : List UserRow) (p : String) : Option UserRow :=
  (users.take 1000).find? (fun u => u.phoneNumber == p)

/-- `ZenStackClient.get_user` (zenstack_client.py:68-84): fetch a page of up to
1000 `User` rows and return the one with the given id; `none` models the
`Exception` raised when no row matches. -/
def zen_get_user (users : List UserRow) (uid : String) : Option UserRow :=
  (users.take 1000).find? (fun u => u.id == uid)

/-- `get_user_by_phone` in `app/auth.py:112-124`: calls
`ZenStackClient.get_users()` whose page size defaults to `take = 100`
(zenstack_client.py:43-46) and returns the first row with the phone number. -/
def auth_get_user_by_phone (users : List UserRow) (p : String) : Option UserRow :=
  (users.take 100).find? (fun u => u.phoneNumber == p)

/-- `ZenStackClient.get_voter_id` (zenstack_client.py:307-322): fetch a page of
up to 1000 `VoterId` rows and return the first whose `voterId` field matches.
The argument is `none` when the store call fails (the `except` branch). -/
def get_voter_id (resp : Option (List VoterRow)) (v : String) : Option VoterRow :=
  match resp with
  | none => none
  | some voters => (voters.take 1000).find? (fun r => r.voterId == v)

/-- `validate_voter_id` in `app/auth.py:85-91`: true iff the looked-up record
exists and its `isActive` is true; any failure resolves to `false`. -/
def validate_voter_id (resp : Option (List VoterRow)) (v : String) : Bool :=
  match get_voter_id resp v with
  | none => false
  | some r => r.isActive

/-- `ZenStackClient.get_otp_by_phone` (zenstack_client.py:335-354): among the
page of up to 1000 `OTP` rows, keep the unused ones for the phone number and
return the one with the latest `createdAt`.  The source sorts descending with a
stable sort and takes the head, i.e. the earliest-positioned row of maximal
`createdAt`; the fold below replaces the accumulator only on a strictly later
`createdAt`, which computes the same row. -/
def get_otp_by_phone (otps : List OTPRow) (p : String) : Option OTPRow :=
  match (otps.take 1000).filter (fun o => o.phoneNumber == p && !o.isUsed) with
  | [] => none
  | h :: t => some (t.foldl (fun b x => if b.createdAt < x.createdAt then x else b) h)

/-- `ZenStackClient.mark_otp_used` (zenstack_client.py:356-359): set
`isUsed := true` on every row with the given id. -/
def mark_otp_used (otps : List OTPRow) (otpId : String) : List OTPRow :=
  otps.map (fun o => if o.id == otpId then { o with isUsed := true } else o)

/-- `ZenStackClient.get_user_session` (zenstack_client.py:389-409): first row
of the 1000-row page with the id of the user, `isActive`, and a strictly later
`expiresAt` than the current time. -/
def get_user_session (sessions : List SessionRow) (uid : String) (now : Nat) :
    Option SessionRow :=
  (sessions.take 1000).find? (fun s => s.userId == uid && s.isActive && now < s.expiresAt)

/-- `ZenStackClient.invalidate_sessions_by_user` (zenstack_client.py:421-436):
fetch the 1000-row page, and for each active session of the user in it issue an
update-by-id that sets `isActive := false` on the full collection. -/
def invalidate_sessions_by_user (sessions : List SessionRow) (uid : String) :
    List SessionRow :=
  ((sessions.take 1000).filter (fun t => t.userId == uid && t.isActive)).foldl
    (fun st t => st.map (fun s => if s.id == t.id then { s with isActive := false } else s))
    sessions

/-- `get_admin_by_email` in `app/auth.py:207-219`: `ZenStackClient.get_admins`
fetches a page whose size defaults to `take = 100` (zenstack_client.py:530-532);
the first row with the email and `isActive` is returned. -/
def get_admin_by_email (admins : List AdminRow) (e : String) : Option AdminRow :=
  (admins.take 100).find? (fun a => a.email == e && a.isActive)

/-! ## OTP Engine (`app/otp_service.py`) -/

/-- Result dictionary of `OTPService.verify_otp`. -/
structure VerifyResult where
  success : Bool
  message : String
deriving DecidableEq

/-- `OTPService.verify_otp` (otp_service.py:142-197): fetch the latest unused
OTP row for the phone, then check used / expired / mismatch in that order; on
success mark the row used.  Returns the result together with the new OTP
collection. -/
def verify_otp (otps : List OTPRow) (p c : String) (now : Nat) :
    VerifyResult × List OTPRow :=
  match get_otp_by_phone otps p with
  | none => (⟨false, "OTP not found"⟩, otps)
  | some r =>
    if r.isUsed then (⟨false, "OTP already used"⟩, otps)
    else if r.expiresAt < now then (⟨false, "OTP expired"⟩, otps)
    else if r.otp ≠ c then (⟨false, "Invalid OTP"⟩, otps)
    else (⟨true, "OTP verified successfully"⟩, mark_otp_used otps r.id)

/-- The OTP row created by `OTPService.send_otp` (otp_service.py:96-140):
`expiresAt = now + 60` seconds, unused; `createdAt` is stamped by the store at
creation time. -/
def send_otp_row (newId p gen : String) (now : Nat) : OTPRow :=
  ⟨newId, p, gen, now + 60, false, now⟩

/-- `OTPService.send_otp`: append the freshly generated OTP row (`gen` stands
for the random 6-digit code, `newId` for the store-assigned row id). -/
def otp_send (otps : List OTPRow) (newId p gen : String) (now : Nat) : List OTPRow :=
  otps ++ [send_otp_row newId p gen now]

/-! ## Token mint and decode (`app/auth.py:21-31`, jose `jwt`) -/

/-- `create_access_token` as called by the citizen `verify-otp` route
(routers/auth.py:85-90): claims `{userId, phoneNumber}`, `exp = now + 7 days`. -/
def mint_citizen_token (uid p : String) (now : Nat) : Payload :=
  ⟨some uid, some p, none, none, none, now + 7 * 24 * 60 * 60⟩

/-- `create_access_token` as called by the admin `login` route
(routers/admin_auth.py:24-33): claims `{adminId, email, userType:"admin"}`,
`exp = now + 8 hours`. -/
def mint_admin_token (aid em : String) (now : Nat) : Payload :=
  ⟨none, none, some aid, some em, some "admin", now + 8 * 60 * 60⟩

/-- `jwt.decode` on a server-minted token: the signature is valid, so decoding
succeeds iff the token is unexpired; otherwise `JWTError` (`none`). -/
def jwt_decode (tok : Payload) (now : Nat) : Option Payload :=
  if now < tok.exp then some tok else none

/-! ## Identity resolvers (`app/auth.py:145-174`, `app/auth.py:242-273`) -/

/-- Outcome of the citizen resolver: `ok` returns the user row, `unauthorized`
models the 401 `credentials_exception`, `serverError` models the uncaught
`Exception` raised by `ZenStackClient.get_user` when the user row is absent
(it is not converted to 401 because only `JWTError` is caught). -/
inductive CitizenResolution where
  | ok (u : UserRow)
  | unauthorized
  | serverError
deriving DecidableEq

/-- `get_current_user_by_token` (app/auth.py:145-174): decode the token,
require both `userId` and `phoneNumber` claims, require an active unexpired
session for the `userId`, then fetch the user row by id and return it. -/
def get_current_user_by_token (tok : Payload) (sessions : List SessionRow)
    (users : List UserRow) (now : Nat) : CitizenResolution :=
  match jwt_decode tok now with
  | none => .unauthorized
  | some payload =>
    match payload.userId, payload.phoneNumber with
    | some uid, some _ =>
      match get_user_session sessions uid now with
      | none => .unauthorized
      | some _ =>
        match zen_get_user users uid with
        | none => .serverError
        | some u => .ok u
    | _, _ => .unauthorized

/-- `get_current_admin` (app/auth.py:242-273): decode the token, require the
`adminId` claim and `userType == "admin"` (the claim defaults to `"user"` when
absent), then return the first active admin row with that id; every failure,
including store exceptions, collapses to the 401 (`none`). -/
def get_current_admin (tok : Payload) (admins : List AdminRow) (now : Nat) :
    Option AdminRow :=
  match jwt_decode tok now with
  | none => none
  | some payload =>
    match payload.adminId with
    | none => none
    | some aid =>
      if payload.userType.getD "user" ≠ "admin" then none
      else (admins.take 100).find? (fun a => a.id == aid && a.isActive)

/-! ## Citizen authentication flow (`app/auth.py`, `app/routers/auth.py`) -/

/-- `create_user_from_phone` (app/auth.py:126-143): new user with the phone
number and claimed voter id, active. -/
def create_user_from_phone (newUserId p v : String) : UserRow :=
  ⟨newUserId, p, v, true⟩

/-- The session row created by `create_user_session` (app/auth.py:93-110):
7-day expiry, active. -/
def new_session_row (newSessionId uid p : String) (now : Nat) : SessionRow :=
  ⟨newSessionId, uid, p, now + 7 * 24 * 60 * 60, true⟩

/-- Result of `authenticate_phone_user`: the resolved or created user and the
updated `User` and `Session` collections. -/
structure PhoneAuthOut where
  user : UserRow
  users : List UserRow
  sessions : List SessionRow
deriving DecidableEq

/-- `authenticate_phone_user` (app/auth.py:176-196): when the claimed voter id
is non-empty it must validate (else 401, `none`); then the user is looked up by
phone over the default 100-row page and created when absent; a session is
always appended. -/
def authenticate_phone_user (users : List UserRow) (sessions : List SessionRow)
    (voters : Option (List VoterRow)) (p v : String)
    (newUserId newSessionId : String) (now : Nat) : Option PhoneAuthOut :=
  if v ≠ "" && !(validate_voter_id voters v) then none
  else
    match auth_get_user_by_phone users p with
    | some u => some ⟨u, users, sessions ++ [new_session_row newSessionId u.id p now]⟩
    | none =>
      some ⟨create_user_from_phone newUserId p v,
            users ++ [create_user_from_phone newUserId p v],
            sessions ++ [new_session_row newSessionId newUserId p now]⟩

/-- Outcome of the `/auth/send-otp` route. -/
inductive SendOtpResult where
  | ok (expiresIn : Nat)
  | unauthorized (detail : String)
deriving DecidableEq

/-- `send_otp` route (routers/auth.py:19-65): the stored voter id of an existing user
id must equal the claimed one; a new phone number requires an eligible voter
id; only then is the OTP row created and the SMS dispatched. -/
def send_otp_endpoint (users : List UserRow) (voters : Option (List VoterRow))
    (otps : List OTPRow) (p v : String) (newId gen : String) (now : Nat) :
    SendOtpResult × List OTPRow :=
  match zen_get_user_by_phone users p with
  | some u =>
    if u.voterId ≠ v then (.unauthorized "Voter ID not linked to this phone number", otps)
    else (.ok 60, otp_send otps newId p gen now)
  | none =>
    if validate_voter_id voters v then (.ok 60, otp_send otps newId p gen now)
    else (.unauthorized "Invalid voter ID", otps)

/-- The token response of the `/auth/verify-otp` route. -/
structure TokenResp where
  access_token : Payload
  token_type : String
  expires_in : Nat
deriving DecidableEq

/-- Outcome of the `/auth/verify-otp` route, carrying the updated stores. -/
inductive VerifyEndpointOut where
  | ok (t : TokenResp) (users : List UserRow) (sessions : List SessionRow)
      (otps : List OTPRow)
  | unauthorized (detail : String)
deriving DecidableEq

/-- `verify_otp` route (routers/auth.py:67-104): OTP verification must
succeed, then `authenticate_phone_user` runs and a citizen token with 7-day
expiry is minted; `expires_in = 7 * 24 * 60 * 60`. -/
def verify_otp_endpoint (otps : List OTPRow) (users : List UserRow)
    (sessions : List SessionRow) (voters : Option (List VoterRow))
    (p c v : String) (newUserId newSessionId : String) (now : Nat) :
    VerifyEndpointOut :=
  if (verify_otp otps p c now).1.success then
    match authenticate_phone_user users sessions voters p v newUserId newSessionId now with
    | none => .unauthorized "Invalid voter ID"
    | some out =>
      .ok ⟨mint_citizen_token out.user.id p now, "bearer", 7 * 24 * 60 * 60⟩
        out.users out.sessions (verify_otp otps p c now).2
  else .unauthorized (verify_otp otps p c now).1.message

/-! ## Admin authentication (`app/auth.py:221-240`, `app/routers/admin_auth.py`) -/

/-- `authenticate_admin` (app/auth.py:221-240): look up the admin by email,
verify the password against the stored hash (`pver` stands for
`pwd_context.verify`), and only on a match stamp `lastLogin`.  Returns the
authenticated admin (or `none` for the 401) and the updated `Admin`
collection. -/
def authenticate_admin (admins : List AdminRow) (pver : String → String → Bool)
    (e pw : String) (now : Nat) : Option AdminRow × List AdminRow :=
  match get_admin_by_email admins e with
  | none => (none, admins)
  | some a =>
    if !(pver pw a.password) then (none, admins)
    else (some a,
      admins.map (fun x => if x.id == a.id then { x with lastLogin := some now } else x))

/-- Outcome of the `/admin/auth/login` route. -/
inductive AdminLoginOut where
  | ok (access_token : Payload) (token_type : String) (expires_in : Nat)
      (user_type : String)
  | invalidCredentials
deriving DecidableEq

/-- `admin_login` route (routers/admin_auth.py:15-48): on successful
authentication mint a token with claims `{adminId, email, userType:"admin"}`
and 8-hour expiry; `expires_in = 8 * 60 * 60`, `user_type = "admin"`. -/
def admin_login (admins : List AdminRow) (pver : String → String → Bool)
    (e pw : String) (now : Nat) : AdminLoginOut × List AdminRow :=
  match authenticate_admin admins pver e pw now with
  | (none, st) => (.invalidCredentials, st)
  | (some a, st) => (.ok (mint_admin_token a.id e now) "bearer" (8 * 60 * 60) "admin", st)

/-! ## Concrete sample stores used by witnesses and counterexamples -/

/-- A store holding a single fresh OTP row for phone `9000000001`. -/
def c1Store : List OTPRow := [⟨"o1", "9000000001", "123456", 100, false, 10⟩]

/-- A user row that is soft-deactivated (`isActive = false`). -/
def c3User : UserRow := ⟨"u1", "9000000001", "", false⟩

/-- Two unused OTP rows for the same phone number; `o2` is the later one. -/
def w8otps : List OTPRow :=
  [⟨"o1", "9000000001", "111111", 100, false, 5⟩,
   ⟨"o2", "9000000001", "222222", 100, false, 9⟩]

/-- The later of the two rows in `w8otps`. -/
def w8row : OTPRow := ⟨"o2", "9000000001", "222222", 100, false, 9⟩

/-- A `User` collection of 101 rows in which the only row for phone
`9000000009` sits at position 100, beyond the 100-row page used by
`auth_get_user_by_phone` but within the 1000-row page used by
`zen_get_user_by_phone`. -/
def c10users : List UserRow :=
  List.replicate 100 ⟨"f", "9000000000", "", true⟩ ++ [⟨"t", "9000000009", "", true⟩]

/-! ## Helper lemmas: OTP selection -/

/-- The strict-greater fold used in `get_otp_by_phone` returns an element of
the candidate list. -/
theorem pick_latest_mem (t : List OTPRow) :
    ∀ h : OTPRow,
      t.foldl (fun b x => if b.createdAt < x.createdAt then x else b) h ∈ h :: t := by
  induction t with
  | nil => intro h; simp
  | cons x t ih =>
    intro h
    simp only [List.foldl_cons]
    rcases List.mem_cons.mp (ih (if h.createdAt < x.createdAt then x else h)) with heq | hmem
    · rw [heq]
      split
      · exact List.mem_cons_of_mem _ (List.mem_cons_self _ _)
      · exact List.mem_cons_self _ _
    · exact List.mem_cons_of_mem _ (List.mem_cons_of_mem _ hmem)

/-- The strict-greater fold used in `get_otp_by_phone` dominates every
`createdAt` of every candidate. -/
theorem pick_latest_ge (t : List OTPRow) :
    ∀ h x : OTPRow, x ∈ h :: t →
      x.createdAt ≤
        (t.foldl (fun b x => if b.createdAt < x.createdAt then x else b) h).createdAt := by
  induction t with
  | nil =>
    intro h x hx
    rcases List.mem_cons.mp hx with he | he
    · rw [he]; exact Nat.le_refl _
    · exact absurd he (List.not_mem_nil x)
  | cons y t ih =>
    intro h x hx
    simp only [List.foldl_cons]
    have hh : h.createdAt ≤ (if h.createdAt < y.createdAt then y else h).createdAt := by
      split
      · exact Nat.le_of_lt (by assumption)
      · exact Nat.le_refl _
    have hy : y.createdAt ≤ (if h.createdAt < y.createdAt then y else h).createdAt := by
      split
      · exact Nat.le_refl _
      · exact Nat.le_of_not_lt (by assumption)
    have hbase := ih (if h.createdAt < y.createdAt then y else h)
      (if h.createdAt < y.createdAt then y else h) (List.mem_cons_self _ _)
    rcases List.mem_cons.mp hx with he | he
    · rw [he]; exact Nat.le_trans hh hbase
    · rcases List.mem_cons.mp he with he2 | he2
      · rw [he2]; exact Nat.le_trans hy hbase
      · exact ih _ x (List.mem_cons_of_mem _ he2)

/-- The row returned by `get_otp_by_phone` matches the phone number, is
unused, and has maximal `createdAt` among the unused matching rows of the
fetched page. -/
theorem get_otp_by_phone_spec (otps : List OTPRow) (p : String) (r : OTPRow)
    (hr : get_otp_by_phone otps p = some r) :
    r.phoneNumber = p ∧ r.isUsed = false ∧
      ∀ o ∈ otps.take 1000, o.phoneNumber = p → o.isUsed = false →
        o.createdAt ≤ r.createdAt := by
  unfold get_otp_by_phone at hr
  cases hm : (otps.take 1000).filter (fun o => o.phoneNumber == p && !o.isUsed) with
  | nil => rw [hm] at hr; exact Option.noConfusion hr
  | cons h t =>
    rw [hm] at hr
    have hrv : r = t.foldl (fun b x => if b.createdAt < x.createdAt then x else b) h :=
      (Option.some.inj hr).symm
    have hrfil : r ∈ (otps.take 1000).filter (fun o => o.phoneNumber == p && !o.isUsed) := by
      rw [hm, hrv]; exact pick_latest_mem t h
    have hpred := (List.mem_filter.mp hrfil).2
    simp only [Bool.and_eq_true, beq_iff_eq, Bool.not_eq_true'] at hpred
    refine ⟨hpred.1, hpred.2, ?_⟩
    intro o ho hop hou
    have hofil : o ∈ (otps.take 1000).filter (fun o => o.phoneNumber == p && !o.isUsed) := by
      rw [List.mem_filter]
      exact ⟨ho, by simp [hop, hou]⟩
    rw [hm] at hofil
    rw [hrv]
    exact pick_latest_ge t h o hofil

/-- When the fetched page holds exactly one unused row for the phone number,
`get_otp_by_phone` returns it. -/
theorem get_otp_by_phone_of_filter_single (otps : List OTPRow) (p : String) (r : OTPRow)
    (hm : (otps.take 1000).filter (fun o => o.phoneNumber == p && !o.isUsed) = [r]) :
    get_otp_by_phone otps p = some r := by
  unfold get_otp_by_phone
  rw [hm]
  rfl

/-- A successful `verify_otp` went through the fetch and all three checks, and
its updated store is exactly the fetched row marked used. -/
theorem verify_otp_success_shape (otps : List OTPRow) (p c : String) (now : Nat)
    (hs : (verify_otp otps p c now).1.success = true) :
    ∃ r, get_otp_by_phone otps p = some r ∧ r.isUsed = false ∧ r.otp = c ∧
      (verify_otp otps p c now).2 = mark_otp_used otps r.id := by
  unfold verify_otp at hs ⊢
  cases hg : get_otp_by_phone otps p with
  | none => rw [hg] at hs; simp at hs
  | some r =>
    rw [hg] at hs
    by_cases h1 : r.isUsed
    · simp [h1] at hs
    · by_cases h2 : r.expiresAt < now
      · simp [h1, h2] at hs
      · by_cases h3 : r.otp = c
        · exact ⟨r, rfl, by simpa using h1, h3, by simp [h1, h2, h3]⟩
        · simp [h1, h2, h3] at hs

/-- After marking the only unused row for the phone number as used, the fetch
finds nothing. -/
theorem get_otp_by_phone_after_mark (otps : List OTPRow) (p : String) (r : OTPRow)
    (hm : (otps.take 1000).filter (fun o => o.phoneNumber == p && !o.isUsed) = [r]) :
    get_otp_by_phone (mark_otp_used otps r.id) p = none := by
  unfold get_otp_by_phone
  have hnil : (List.take 1000 (mark_otp_used otps r.id)).filter
      (fun o => o.phoneNumber == p && !o.isUsed) = [] := by
    unfold mark_otp_used
    rw [← List.map_take]
    rw [List.filter_eq_nil_iff]
    intro x hx
    obtain ⟨s, hsmem, rfl⟩ := List.mem_map.mp hx
    by_cases hid : s.id == r.id
    · simp [hid]
    · simp only [hid, if_neg, Bool.false_eq_true, not_false_eq_true, ite_false]
      intro hp
      have hsr : s ∈ [r] := by
        rw [← hm]; exact List.mem_filter.mpr ⟨hsmem, hp⟩
      have : s = r := by simpa using hsr
      rw [this] at hid
      simp at hid
  rw [hnil]

/-! ## Helper lemmas: session invalidation -/

/-- The sequence of update-by-id writes issued by
`invalidate_sessions_by_user` equals one map applying all updates per row. -/
theorem foldl_map_update (L : List SessionRow) :
    ∀ st : List SessionRow,
      L.foldl (fun st t =>
          st.map (fun s => if s.id == t.id then { s with isActive := false } else s)) st =
        st.map (fun s =>
          L.foldl (fun s t => if s.id == t.id then { s with isActive := false } else s) s) := by
  induction L with
  | nil => intro st; simp
  | cons t L ih =>
    intro st
    simp only [List.foldl_cons]
    rw [ih, List.map_map]
    rfl

/-- The per-row update chain never changes `id` or `userId`. -/
theorem fold_deact_fields (L : List SessionRow) :
    ∀ s : SessionRow,
      (L.foldl (fun s t => if s.id == t.id then { s with isActive := false } else s) s).id
          = s.id ∧
        (L.foldl (fun s t => if s.id == t.id then { s with isActive := false } else s) s).userId
          = s.userId := by
  induction L with
  | nil => intro s; exact ⟨rfl, rfl⟩
  | cons t L ih =>
    intro s
    simp only [List.foldl_cons]
    refine ⟨?_, ?_⟩
    · rw [(ih _).1]; split <;> rfl
    · rw [(ih _).2]; split <;> rfl

/-- The per-row update chain never re-activates a session. -/
theorem fold_deact_stays_false (L : List SessionRow) :
    ∀ s : SessionRow, s.isActive = false →
      (L.foldl (fun s t => if s.id == t.id then { s with isActive := false } else s) s).isActive
        = false := by
  induction L with
  | nil => intro s h; exact h
  | cons t L ih =>
    intro s h
    simp only [List.foldl_cons]
    apply ih
    split
    · rfl
    · exact h

/-- A row whose id occurs in the update list ends up inactive. -/
theorem fold_deact_hit (L : List SessionRow) :
    ∀ s t : SessionRow, t ∈ L → t.id = s.id →
      (L.foldl (fun s t => if s.id == t.id then { s with isActive := false } else s) s).isActive
        = false := by
  induction L with
  | nil => intro s t ht _; exact absurd ht (List.not_mem_nil t)
  | cons t0 L ih =>
    intro s t ht hid
    simp only [List.foldl_cons]
    rcases List.mem_cons.mp ht with he | he
    · have hb : (s.id == t0.id) = true := by rw [he] at hid; exact beq_iff_eq.mpr hid.symm
      have hred : (if s.id == t0.id then { s with isActive := false } else s) =
          { s with isActive := false } := by simp [hb]
      rw [hred]
      exact fold_deact_stays_false L _ rfl
    · refine ih _ t he ?_
      have hpid : (if s.id == t0.id then { s with isActive := false } else s).id = s.id := by
        split <;> rfl
      rw [hpid]
      exact hid

/-- After `invalidate_sessions_by_user` no active unexpired session for the
user is found by `get_user_session`: every session of the user in the fetched
page was deactivated by an update that preserves row order, and the follow-up
fetch reads the same page. -/
theorem get_user_session_after_invalidate (sessions : List SessionRow) (uid : String)
    (now : Nat) :
    get_user_session (invalidate_sessions_by_user sessions uid) uid now = none := by
  unfold invalidate_sessions_by_user get_user_session
  rw [foldl_map_update, ← List.map_take, List.find?_eq_none]
  intro x hx
  obtain ⟨s, hsmem, rfl⟩ := List.mem_map.mp hx
  intro hp
  simp only [Bool.and_eq_true] at hp
  obtain ⟨⟨hu, ha⟩, _⟩ := hp
  have hfields := fold_deact_fields
    ((sessions.take 1000).filter (fun t => t.userId == uid && t.isActive)) s
  by_cases hact : s.isActive
  · have hsuid : s.userId = uid := by
      rw [hfields.2] at hu
      exact beq_iff_eq.mp hu
    have hsL : s ∈ (sessions.take 1000).filter (fun t => t.userId == uid && t.isActive) := by
      rw [List.mem_filter]
      exact ⟨hsmem, by simp [hsuid, hact]⟩
    have hfalse := fold_deact_hit _ s s hsL rfl
    rw [hfalse] at ha
    exact Bool.noConfusion ha
  · have hfalse := fold_deact_stays_false
      ((sessions.take 1000).filter (fun t => t.userId == uid && t.isActive)) s
      (by simpa using hact)
    rw [hfalse] at ha
    exact Bool.noConfusion ha

/-! ## Claim C1 -/

/-- Claim C1 (counterexample): after `verify(P,C)` succeeds on the only OTP
row for `P`, a second `verify(P,C)` fails with reason `OTP not found`, not
`OTP already used` — `get_otp_by_phone` filters out used rows, so the
already-used branch of `verify_otp` is not what reports the failure. -/
theorem otp_second_verify_counterexample_c1 :
    (verify_otp c1Store "9000000001" "123456" 50).1.success = true ∧
    (verify_otp (verify_otp c1Store "9000000001" "123456" 50).2
        "9000000001" "123456" 50).1.success = false ∧
    (verify_otp (verify_otp c1Store "9000000001" "123456" 50).2
        "9000000001" "123456" 50).1.message = "OTP not found" ∧
    "OTP not found" ≠ "OTP already used" := by decide

/-- Claim C1 (amended): OTP verification is single-use: after `verify(P,C)`
succeeds (marking the matched row used), a second `verify(P,C)` — when the
consumed row was the only unused row for `P` — never re-succeeds and fails
with the reason `OTP not found` (the used row is excluded from selection), not
with `OTP already used`. -/
theorem otp_single_use_amended_c1 (otps : List OTPRow) (p c : String) (now now2 : Nat)
    (r : OTPRow)
    (hm : (otps.take 1000).filter (fun o => o.phoneNumber == p && !o.isUsed) = [r])
    (hs : (verify_otp otps p c now).1.success = true) :
    (verify_otp (verify_otp otps p c now).2 p c now2).1.success = false ∧
    (verify_otp (verify_otp otps p c now).2 p c now2).1.message = "OTP not found" := by
  obtain ⟨r0, hg0, _, _, hst⟩ := verify_otp_success_shape otps p c now hs
  have hg : get_otp_by_phone otps p = some r := get_otp_by_phone_of_filter_single otps p r hm
  rw [hg] at hg0
  have hr0 : r = r0 := Option.some.inj hg0
  rw [hst, ← hr0]
  have hnone := get_otp_by_phone_after_mark otps p r hm
  unfold verify_otp
  rw [hnone]
  exact ⟨rfl, rfl⟩

/-- Witness for `otp_single_use_amended_c1` at the concrete store `c1Store`. -/
theorem otp_single_use_amended_c1_witness :
    (c1Store.take 1000).filter
        (fun o => o.phoneNumber == "9000000001" && !o.isUsed)
      = [⟨"o1", "9000000001", "123456", 100, false, 10⟩] ∧
    (verify_otp c1Store "9000000001" "123456" 50).1.success = true ∧
    (verify_otp (verify_otp c1Store "9000000001" "123456" 50).2
        "9000000001" "123456" 90).1.success = false ∧
    (verify_otp (verify_otp c1Store "9000000001" "123456" 50).2
        "9000000001" "123456" 90).1.message = "OTP not found" :=
  ⟨by decide, by decide,
    (otp_single_use_amended_c1 c1Store "9000000001" "123456" 50 90
      ⟨"o1", "9000000001", "123456", 100, false, 10⟩ (by decide) (by decide)).1,
    (otp_single_use_amended_c1 c1Store "9000000001" "123456" 50 90
      ⟨"o1", "9000000001", "123456", 100, false, 10⟩ (by decide) (by decide)).2⟩

/-! ## Claim C2 -/

/-- Claim C2: after `logout()` invalidates the sessions of a citizen, the citizen
resolver rejects the token of that citizen with Unauthorized even though the
expiry of the token itself has not passed, because no active unexpired session for the
`userId` remains. -/
theorem logout_revokes_token_c2 (sessions : List SessionRow) (users : List UserRow)
    (uid phone : String) (mintNow now : Nat)
    (hexp : now < (mint_citizen_token uid phone mintNow).exp) :
    get_current_user_by_token (mint_citizen_token uid phone mintNow)
      (invalidate_sessions_by_user sessions uid) users now = .unauthorized := by
  have hexp2 : now < mintNow + 604800 := by simpa [mint_citizen_token] using hexp
  simp [get_current_user_by_token, jwt_decode, hexp2, mint_citizen_token,
    get_user_session_after_invalidate]

/-- Witness for `logout_revokes_token_c2` at a concrete session store. -/
theorem logout_revokes_token_c2_witness :
    10 < (mint_citizen_token "u1" "9000000001" 0).exp ∧
    get_current_user_by_token (mint_citizen_token "u1" "9000000001" 0)
      (invalidate_sessions_by_user [⟨"s1", "u1", "9000000001", 1000000, true⟩] "u1")
      [⟨"u1", "9000000001", "ABC123", true⟩] 10 = .unauthorized :=
  ⟨by decide, logout_revokes_token_c2 _ _ _ _ _ _ (by decide)⟩

/-! ## Claim C3 -/

/-- Claim C3 (counterexample): with a valid token, an active unexpired
session, and a `User` row whose `isActive` is `false`, the citizen resolver
returns the user instead of rejecting with Unauthorized: it never checks
`isActive`. -/
theorem citizen_resolver_inactive_counterexample_c3 :
    c3User.isActive = false ∧
    get_current_user_by_token (mint_citizen_token "u1" "9000000001" 0)
      [⟨"s1", "u1", "9000000001", 1000000, true⟩] [c3User] 10 = .ok c3User ∧
    get_current_user_by_token (mint_citizen_token "u1" "9000000001" 0)
      [⟨"s1", "u1", "9000000001", 1000000, true⟩] [c3User] 10 ≠ .unauthorized := by
  decide

/-- Claim C3 (amended): for a verified citizen token, a missing active
unexpired session yields Unauthorized; with such a session present, a missing
`User` record makes the store lookup raise an exception that only `JWTError`
handling does not catch (a server error, not Unauthorized); and an existing
`User` record is returned without any `isActive` check — in particular one
with `isActive = false` is returned rather than rejected. -/
theorem citizen_resolver_no_liveness_check_c3 (sessions : List SessionRow)
    (users : List UserRow) (uid phone : String) (mintNow now : Nat) (s : SessionRow)
    (u : UserRow)
    (hexp : now < (mint_citizen_token uid phone mintNow).exp) :
    (get_user_session sessions uid now = none →
      get_current_user_by_token (mint_citizen_token uid phone mintNow) sessions users now
        = .unauthorized) ∧
    (get_user_session sessions uid now = some s → zen_get_user users uid = none →
      get_current_user_by_token (mint_citizen_token uid phone mintNow) sessions users now
        = .serverError) ∧
    (get_user_session sessions uid now = some s → zen_get_user users uid = some u →
      get_current_user_by_token (mint_citizen_token uid phone mintNow) sessions users now
        = .ok u) := by
  have hexp2 : now < mintNow + 604800 := by simpa [mint_citizen_token] using hexp
  refine ⟨?_, ?_, ?_⟩
  · intro hnone
    simp [get_current_user_by_token, jwt_decode, hexp2, mint_citizen_token, hnone]
  · intro hsess hnouser
    simp [get_current_user_by_token, jwt_decode, hexp2, mint_citizen_token, hsess, hnouser]
  · intro hsess huser
    simp [get_current_user_by_token, jwt_decode, hexp2, mint_citizen_token, hsess, huser]

/-- Witness for `citizen_resolver_no_liveness_check_c3` at concrete stores
exercising all three branches: no session, missing user record, and an
inactive user record. -/
theorem citizen_resolver_no_liveness_check_c3_witness :
    (10 : Nat) < (mint_citizen_token "u2" "9000000002" 0).exp ∧
    get_user_session [] "u2" 10 = none ∧
    get_current_user_by_token (mint_citizen_token "u2" "9000000002" 0) [] [] 10
      = .unauthorized ∧
    get_user_session [⟨"s2", "u2", "9000000002", 1000000, true⟩] "u2" 10
      = some ⟨"s2", "u2", "9000000002", 1000000, true⟩ ∧
    zen_get_user ([] : List UserRow) "u2" = none ∧
    get_current_user_by_token (mint_citizen_token "u2" "9000000002" 0)
      [⟨"s2", "u2", "9000000002", 1000000, true⟩] [] 10 = .serverError ∧
    zen_get_user [⟨"u2", "9000000002", "XYZ", false⟩] "u2"
      = some ⟨"u2", "9000000002", "XYZ", false⟩ ∧
    get_current_user_by_token (mint_citizen_token "u2" "9000000002" 0)
      [⟨"s2", "u2", "9000000002", 1000000, true⟩]
      [⟨"u2", "9000000002", "XYZ", false⟩] 10
      = .ok ⟨"u2", "9000000002", "XYZ", false⟩ := by
  have H1 := citizen_resolver_no_liveness_check_c3 [] [] "u2" "9000000002" 0 10
    ⟨"s2", "u2", "9000000002", 1000000, true⟩ ⟨"u2", "9000000002", "XYZ", false⟩
    (by decide)
  have H2 := citizen_resolver_no_liveness_check_c3
    [⟨"s2", "u2", "9000000002", 1000000, true⟩] [] "u2" "9000000002" 0 10
    ⟨"s2", "u2", "9000000002", 1000000, true⟩ ⟨"u2", "9000000002", "XYZ", false⟩
    (by decide)
  have H3 := citizen_resolver_no_liveness_check_c3
    [⟨"s2", "u2", "9000000002", 1000000, true⟩]
    [⟨"u2", "9000000002", "XYZ", false⟩] "u2" "9000000002" 0 10
    ⟨"s2", "u2", "9000000002", 1000000, true⟩ ⟨"u2", "9000000002", "XYZ", false⟩
    (by decide)
  exact ⟨by decide, by decide, H1.1 (by decide), by decide, by decide,
    H2.2.1 (by decide) (by decide), by decide, H3.2.2 (by decide) (by decide)⟩

/-! ## Claim C8 -/

/-- Claim C8: the OTP row fetched for verification is an unused row for the
phone number with the latest `createdAt` among the unused matching rows of the
fetched page, and on success only that row is marked used: every other row is
left untouched in the updated store. -/
theorem otp_selection_latest_c8 (otps : List OTPRow) (p c : String) (now : Nat)
    (r : OTPRow) (hr : get_otp_by_phone otps p = some r) :
    (r.phoneNumber = p ∧ r.isUsed = false ∧
      ∀ o ∈ otps.take 1000, o.phoneNumber = p → o.isUsed = false →
        o.createdAt ≤ r.createdAt) ∧
    ((verify_otp otps p c now).1.success = true →
      (verify_otp otps p c now).2 = mark_otp_used otps r.id ∧
      ∀ o ∈ otps, o.id ≠ r.id → o ∈ (verify_otp otps p c now).2) := by
  refine ⟨get_otp_by_phone_spec otps p r hr, ?_⟩
  intro hs
  obtain ⟨r0, hg0, _, _, hst⟩ := verify_otp_success_shape otps p c now hs
  rw [hr] at hg0
  have hr0 : r = r0 := Option.some.inj hg0
  refine ⟨by rw [hst, ← hr0], ?_⟩
  intro o ho hne
  rw [hst, ← hr0]
  unfold mark_otp_used
  refine List.mem_map.mpr ⟨o, ho, ?_⟩
  have hb : (o.id == r.id) = false := by simp [hne]
  simp [hb]

/-- Witness for `otp_selection_latest_c8` on a store with two unused rows for
the phone number: the later row `w8row` is selected and, after a successful
verify, the earlier row is untouched. -/
theorem otp_selection_latest_c8_witness :
    get_otp_by_phone w8otps "9000000001" = some w8row ∧
    (w8row.phoneNumber = "9000000001" ∧ w8row.isUsed = false ∧
      ∀ o ∈ w8otps.take 1000, o.phoneNumber = "9000000001" → o.isUsed = false →
        o.createdAt ≤ w8row.createdAt) ∧
    ((verify_otp w8otps "9000000001" "222222" 50).1.success = true →
      (verify_otp w8otps "9000000001" "222222" 50).2 = mark_otp_used w8otps w8row.id ∧
      ∀ o ∈ w8otps, o.id ≠ w8row.id → o ∈ (verify_otp w8otps "9000000001" "222222" 50).2) :=
  ⟨by decide,
    (otp_selection_latest_c8 w8otps "9000000001" "222222" 50 w8row (by decide)).1,
    (otp_selection_latest_c8 w8otps "9000000001" "222222" 50 w8row (by decide)).2⟩

/-! ## Claim C4 -/

/-- Claim C4: `send_otp` gating and atomicity: a request for a phone number
with no existing user and a voter id that does not validate (absent, inactive,
or lookup failure) is rejected with Unauthorized before any OTP record is
created — the OTP store is returned unchanged; and a request whose existing
stored voter id of the existing user differs from the claimed one is likewise rejected with
the OTP store unchanged. -/
theorem send_otp_gating_c4 (users : List UserRow) (voters : Option (List VoterRow))
    (otps : List OTPRow) (p v newId gen : String) (now : Nat) :
    (zen_get_user_by_phone users p = none → validate_voter_id voters v = false →
      send_otp_endpoint users voters otps p v newId gen now =
        (.unauthorized "Invalid voter ID", otps)) ∧
    (∀ u, zen_get_user_by_phone users p = some u → u.voterId ≠ v →
      send_otp_endpoint users voters otps p v newId gen now =
        (.unauthorized "Voter ID not linked to this phone number", otps)) := by
  constructor
  · intro h1 h2
    simp [send_otp_endpoint, h1, h2]
  · intro u h1 h2
    simp [send_otp_endpoint, h1, h2]

/-- Witness for `send_otp_gating_c4`: an inactive voter id for a new phone
number, and a mismatched voter id for an existing user, both leave the OTP
store empty. -/
theorem send_otp_gating_c4_witness :
    (zen_get_user_by_phone [] "9000000001" = none ∧
      validate_voter_id (some [⟨"v1", "ABC123", false⟩]) "ABC123" = false ∧
      send_otp_endpoint [] (some [⟨"v1", "ABC123", false⟩]) [] "9000000001" "ABC123"
          "o1" "123456" 0
        = (.unauthorized "Invalid voter ID", [])) ∧
    (zen_get_user_by_phone [⟨"u1", "9000000001", "ABC123", true⟩] "9000000001"
        = some ⟨"u1", "9000000001", "ABC123", true⟩ ∧
      send_otp_endpoint [⟨"u1", "9000000001", "ABC123", true⟩] none [] "9000000001"
          "ZZZ999" "o1" "123456" 0
        = (.unauthorized "Voter ID not linked to this phone number", [])) :=
  ⟨⟨by decide, by decide,
      (send_otp_gating_c4 [] (some [⟨"v1", "ABC123", false⟩]) [] "9000000001" "ABC123"
        "o1" "123456" 0).1 (by decide) (by decide)⟩,
    ⟨by decide,
      (send_otp_gating_c4 [⟨"u1", "9000000001", "ABC123", true⟩] none [] "9000000001"
        "ZZZ999" "o1" "123456" 0).2 ⟨"u1", "9000000001", "ABC123", true⟩
        (by decide) (by decide)⟩⟩

/-! ## Claim C5 -/

/-- Claim C5: the voter eligibility gate is fail-closed: a failed store call
resolves to `false`, and over a registry that fits in the fetched 1000-row
page and holds no duplicate rows for the value, the gate returns `true`
exactly when a `VoterId` record with that value exists with
`isActive = true`.  The gate is a total boolean function of the lookup
outcome, so no exception escapes this boundary. -/
theorem voter_gate_fail_closed_c5 (voters : List VoterRow) (v : String)
    (hlen : voters.length ≤ 1000)
    (huniq : ∀ r1 ∈ voters, ∀ r2 ∈ voters, r1.voterId = v → r2.voterId = v → r1 = r2) :
    validate_voter_id none v = false ∧
    (validate_voter_id (some voters) v = true ↔
      ∃ r ∈ voters, r.voterId = v ∧ r.isActive = true) := by
  refine ⟨rfl, ?_⟩
  have hgv : get_voter_id (some voters) v = voters.find? (fun r => r.voterId == v) := by
    show (voters.take 1000).find? (fun r => r.voterId == v)
      = voters.find? (fun r => r.voterId == v)
    rw [List.take_of_length_le hlen]
  unfold validate_voter_id
  rw [hgv]
  cases hf : voters.find? (fun r => r.voterId == v) with
  | none =>
    simp only [List.find?_eq_none] at hf
    constructor
    · intro h; exact absurd h (by decide)
    · rintro ⟨r, hr, hrv, _⟩
      exact absurd (beq_iff_eq.mpr hrv) (hf r hr)
  | some r0 =>
    have hmem := List.mem_of_find?_eq_some hf
    have hpred0 := List.find?_some hf
    have hpred : r0.voterId = v := beq_iff_eq.mp hpred0
    constructor
    · intro h
      exact ⟨r0, hmem, hpred, h⟩
    · rintro ⟨r, hr, hrv, hra⟩
      show r0.isActive = true
      rw [huniq r0 hmem r hr hpred hrv]
      exact hra

/-- Witness for `voter_gate_fail_closed_c5` at a one-row registry. -/
theorem voter_gate_fail_closed_c5_witness :
    ([⟨"v1", "ABC123", true⟩] : List VoterRow).length ≤ 1000 ∧
    validate_voter_id none "ABC123" = false ∧
    (validate_voter_id (some [⟨"v1", "ABC123", true⟩]) "ABC123" = true ↔
      ∃ r ∈ [(⟨"v1", "ABC123", true⟩ : VoterRow)],
        r.voterId = "ABC123" ∧ r.isActive = true) :=
  ⟨by decide,
    (voter_gate_fail_closed_c5 [⟨"v1", "ABC123", true⟩] "ABC123"
      (by decide) (by decide)).1,
    (voter_gate_fail_closed_c5 [⟨"v1", "ABC123", true⟩] "ABC123"
      (by decide) (by decide)).2⟩

/-! ## Claim C6 -/

/-- Claim C6: principal isolation: a token minted by the admin login path
(claims `{adminId, email, userType:"admin"}`) is rejected by the citizen
resolver with Unauthorized, and a token minted by the citizen login path
(claims `{userId, phoneNumber}`) is rejected by the admin resolver, for every
store state and every clock value. -/
theorem principal_isolation_c6 (admins : List AdminRow) (users : List UserRow)
    (sessions : List SessionRow) (aid em uid phone : String) (tA tC nowA nowC : Nat) :
    get_current_user_by_token (mint_admin_token aid em tA) sessions users nowA
      = .unauthorized ∧
    get_current_admin (mint_citizen_token uid phone tC) admins nowC = none := by
  constructor
  · by_cases h : nowA < tA + 28800 <;>
      simp [get_current_user_by_token, jwt_decode, mint_admin_token, h]
  · by_cases h : nowC < tC + 604800 <;>
      simp [get_current_admin, jwt_decode, mint_citizen_token, h]

/-! ## Claim C7 -/

/-- Claim C7: token expiry policy: every successful citizen `verify-otp`
response reports `expires_in = 604800` seconds and carries a token whose
`exp` is `now + 604800` (7 days); every successful `admin login` response
reports `expires_in = 28800` seconds with `user_type = "admin"` and carries a
token whose `exp` is `now + 28800` (8 hours). -/
theorem token_expiry_policy_c7
    (otps : List OTPRow) (users : List UserRow) (sessions : List SessionRow)
    (voters : Option (List VoterRow)) (p c v newUserId newSessionId : String)
    (now : Nat) (t : TokenResp) (us : List UserRow) (ss : List SessionRow)
    (os : List OTPRow) (admins : List AdminRow) (pver : String → String → Bool)
    (e pw : String) (nowA : Nat) (tok : Payload) (tt : String) (ei : Nat)
    (ut : String) (stOut : List AdminRow) :
    (verify_otp_endpoint otps users sessions voters p c v newUserId newSessionId now
        = .ok t us ss os →
      t.expires_in = 604800 ∧ t.access_token.exp = now + 604800) ∧
    (admin_login admins pver e pw nowA = (.ok tok tt ei ut, stOut) →
      ei = 28800 ∧ ut = "admin" ∧ tok.exp = nowA + 28800) := by
  constructor
  · intro h
    unfold verify_otp_endpoint at h
    by_cases hsucc : (verify_otp otps p c now).1.success
    · rw [if_pos hsucc] at h
      cases hauth : authenticate_phone_user users sessions voters p v newUserId
          newSessionId now with
      | none => rw [hauth] at h; exact VerifyEndpointOut.noConfusion h
      | some out =>
        rw [hauth] at h
        injection h with h1 h2 h3 h4
        rw [← h1]
        refine ⟨by norm_num, ?_⟩
        show (mint_citizen_token out.user.id p now).exp = now + 604800
        simp [mint_citizen_token]
    · rw [if_neg hsucc] at h
      exact VerifyEndpointOut.noConfusion h
  · intro h
    unfold admin_login at h
    rcases haa : authenticate_admin admins pver e pw nowA with ⟨oa, st2⟩
    rw [haa] at h
    cases oa with
    | none =>
      injection h with h1 h2
      exact AdminLoginOut.noConfusion h1
    | some a =>
      injection h with h1 h2
      injection h1 with hm1 hm2 hm3 hm4
      refine ⟨by rw [← hm3], hm4.symm, ?_⟩
      rw [← hm1]
      simp [mint_admin_token]

/-- Witness for `token_expiry_policy_c7`: a concrete successful citizen
verify-otp call and a concrete successful admin login. -/
theorem token_expiry_policy_c7_witness :
    verify_otp_endpoint [⟨"o9", "9000000001", "123456", 100, false, 10⟩] [] [] none
        "9000000001" "123456" "" "u9" "s9" 50
      = .ok ⟨⟨some "u9", some "9000000001", none, none, none, 604850⟩, "bearer", 604800⟩
          [⟨"u9", "9000000001", "", true⟩] [⟨"s9", "u9", "9000000001", 604850, true⟩]
          [⟨"o9", "9000000001", "123456", 100, true, 10⟩] ∧
    (⟨⟨some "u9", some "9000000001", none, none, none, 604850⟩, "bearer", 604800⟩ :
        TokenResp).expires_in = 604800 ∧
    (⟨⟨some "u9", some "9000000001", none, none, none, 604850⟩, "bearer", 604800⟩ :
        TokenResp).access_token.exp = 50 + 604800 ∧
    admin_login [⟨"a9", "admin@example.org", "pw", true, none⟩] BEq.beq
        "admin@example.org" "pw" 0
      = (.ok ⟨none, none, some "a9", some "admin@example.org", some "admin", 28800⟩
          "bearer" 28800 "admin", [⟨"a9", "admin@example.org", "pw", true, some 0⟩]) ∧
    (28800 : Nat) = 28800 ∧ ("admin" : String) = "admin" ∧
    (⟨none, none, some "a9", some "admin@example.org", some "admin", 28800⟩ :
        Payload).exp = 0 + 28800 := by
  have H := token_expiry_policy_c7
    [⟨"o9", "9000000001", "123456", 100, false, 10⟩] [] [] none
    "9000000001" "123456" "" "u9" "s9" 50
    ⟨⟨some "u9", some "9000000001", none, none, none, 604850⟩, "bearer", 604800⟩
    [⟨"u9", "9000000001", "", true⟩] [⟨"s9", "u9", "9000000001", 604850, true⟩]
    [⟨"o9", "9000000001", "123456", 100, true, 10⟩]
    [⟨"a9", "admin@example.org", "pw", true, none⟩] BEq.beq "admin@example.org" "pw" 0
    ⟨none, none, some "a9", some "admin@example.org", some "admin", 28800⟩
    "bearer" 28800 "admin" [⟨"a9", "admin@example.org", "pw", true, some 0⟩]
  refine ⟨by decide, (H.1 (by decide)).1, (H.1 (by decide)).2, by decide,
    (H.2 (by decide)).1, (H.2 (by decide)).2.1, (H.2 (by decide)).2.2⟩

/-! ## Claim C9 -/

/-- Claim C9: admin login frame condition: with a known (active) email but a
password rejected by the hash comparison, `admin_login` fails with
InvalidCredentials and the Admin collection is returned unchanged — no
`lastLogin` write occurs; `lastLogin` is stamped only when the password
comparison succeeds, and then only on the row of the authenticated admin. -/
theorem admin_login_frame_c9 (admins : List AdminRow) (pver : String → String → Bool)
    (e pw : String) (now : Nat) :
    (∀ a, get_admin_by_email admins e = some a → pver pw a.password = false →
      admin_login admins pver e pw now = (.invalidCredentials, admins)) ∧
    (∀ a stOut, authenticate_admin admins pver e pw now = (some a, stOut) →
      pver pw a.password = true ∧
      stOut = admins.map
        (fun x => if x.id == a.id then { x with lastLogin := some now } else x)) := by
  constructor
  · intro a ha hp
    simp [admin_login, authenticate_admin, ha, hp]
  · intro a stOut h
    unfold authenticate_admin at h
    cases hg : get_admin_by_email admins e with
    | none =>
      rw [hg] at h
      injection h with h1 h2
      exact Option.noConfusion h1
    | some a0 =>
      rw [hg] at h
      replace h : (if !(pver pw a0.password) then ((none : Option AdminRow), admins)
          else (some a0, admins.map (fun x =>
            if x.id == a0.id then { x with lastLogin := some now } else x)))
          = (some a, stOut) := h
      by_cases hp : pver pw a0.password
      · rw [hp] at h
        simp only [Bool.not_true] at h
        rw [if_neg (by decide)] at h
        injection h with h1 h2
        obtain rfl : a0 = a := Option.some.inj h1
        exact ⟨hp, h2.symm⟩
      · simp [hp] at h

/-- Witness for `admin_login_frame_c9`: a wrong-password attempt leaves the
store unchanged; a successful attempt stamps `lastLogin`. -/
theorem admin_login_frame_c9_witness :
    get_admin_by_email [⟨"a1", "admin@example.org", "pw", true, none⟩]
        "admin@example.org" = some ⟨"a1", "admin@example.org", "pw", true, none⟩ ∧
    BEq.beq "wrong" "pw" = false ∧
    admin_login [⟨"a1", "admin@example.org", "pw", true, none⟩] BEq.beq
        "admin@example.org" "wrong" 0
      = (.invalidCredentials, [⟨"a1", "admin@example.org", "pw", true, none⟩]) ∧
    authenticate_admin [⟨"a1", "admin@example.org", "pw", true, none⟩] BEq.beq
        "admin@example.org" "pw" 5
      = (some ⟨"a1", "admin@example.org", "pw", true, none⟩,
          [⟨"a1", "admin@example.org", "pw", true, some 5⟩]) ∧
    BEq.beq "pw" "pw" = true ∧
    [(⟨"a1", "admin@example.org", "pw", true, some 5⟩ : AdminRow)]
      = [(⟨"a1", "admin@example.org", "pw", true, none⟩ : AdminRow)].map
          (fun x => if x.id == "a1" then { x with lastLogin := some 5 } else x) := by
  refine ⟨by decide, by decide, ?_, by decide, ?_, ?_⟩
  · exact (admin_login_frame_c9 [⟨"a1", "admin@example.org", "pw", true, none⟩]
      BEq.beq "admin@example.org" "wrong" 0).1
      ⟨"a1", "admin@example.org", "pw", true, none⟩ (by decide) (by decide)
  · exact ((admin_login_frame_c9 [⟨"a1", "admin@example.org", "pw", true, none⟩]
      BEq.beq "admin@example.org" "pw" 5).2
      ⟨"a1", "admin@example.org", "pw", true, none⟩
      [⟨"a1", "admin@example.org", "pw", true, some 5⟩] (by decide)).1
  · exact ((admin_login_frame_c9 [⟨"a1", "admin@example.org", "pw", true, none⟩]
      BEq.beq "admin@example.org" "pw" 5).2
      ⟨"a1", "admin@example.org", "pw", true, none⟩
      [⟨"a1", "admin@example.org", "pw", true, some 5⟩] (by decide)).2

/-! ## Claim C10 -/

/-- Claim C10: page-size mismatch in user lookup: the pre-OTP existing-user
check reads a 1000-row page while the post-verification lookup used by
`authenticate_phone_user` reads only the first 100 rows; for every store in
which the only users with the phone number sit beyond position 100 (but
within the 1000-row page), the post-verification lookup reports no user and a
second `User` record with the same phone number is created. -/
theorem user_lookup_page_mismatch_c10 (users : List UserRow)
    (sessions : List SessionRow) (voters : Option (List VoterRow))
    (p v newUserId newSessionId : String) (now : Nat)
    (hpage : (users.take 100).all (fun u => !(u.phoneNumber == p)) = true)
    (hex : ∃ u ∈ users.take 1000, u.phoneNumber = p)
    (hv : v = "" ∨ validate_voter_id voters v = true) :
    auth_get_user_by_phone users p = none ∧
    (zen_get_user_by_phone users p).isSome = true ∧
    authenticate_phone_user users sessions voters p v newUserId newSessionId now
      = some ⟨create_user_from_phone newUserId p v,
              users ++ [create_user_from_phone newUserId p v],
              sessions ++ [new_session_row newSessionId newUserId p now]⟩ ∧
    2 ≤ (users ++ [create_user_from_phone newUserId p v]).countP
          (fun u => u.phoneNumber == p) := by
  have hauth : auth_get_user_by_phone users p = none := by
    unfold auth_get_user_by_phone
    rw [List.find?_eq_none]
    intro x hx
    have hall := List.all_eq_true.mp hpage x hx
    simp only [Bool.not_eq_true'] at hall
    simp [hall]
  have hzen : (zen_get_user_by_phone users p).isSome = true := by
    unfold zen_get_user_by_phone
    rw [List.find?_isSome]
    obtain ⟨u, hu, hup⟩ := hex
    exact ⟨u, hu, by simp [hup]⟩
  refine ⟨hauth, hzen, ?_, ?_⟩
  · unfold authenticate_phone_user
    have hcond : (decide (v ≠ "") && !(validate_voter_id voters v)) = false := by
      rcases hv with h | h
      · subst h; simp
      · simp [h]
    simp only [hcond, Bool.false_eq_true, if_false]
    rw [hauth]
  · rw [List.countP_append]
    have h1 : 0 < users.countP (fun u => u.phoneNumber == p) := by
      rw [List.countP_pos_iff]
      obtain ⟨u, hu, hup⟩ := hex
      exact ⟨u, List.mem_of_mem_take hu, by simp [hup]⟩
    have h2 : List.countP (fun u => u.phoneNumber == p)
        [create_user_from_phone newUserId p v] = 1 := by
      simp [create_user_from_phone]
    omega

/-- Witness for `user_lookup_page_mismatch_c10` at the 101-row store
`c10users`. -/
theorem user_lookup_page_mismatch_c10_witness :
    (c10users.take 100).all (fun u => !(u.phoneNumber == "9000000009")) = true ∧
    auth_get_user_by_phone c10users "9000000009" = none ∧
    (zen_get_user_by_phone c10users "9000000009").isSome = true ∧
    authenticate_phone_user c10users [] none "9000000009" "" "u10" "s10" 0
      = some ⟨create_user_from_phone "u10" "9000000009" "",
              c10users ++ [create_user_from_phone "u10" "9000000009" ""],
              [] ++ [new_session_row "s10" "u10" "9000000009" 0]⟩ ∧
    2 ≤ (c10users ++ [create_user_from_phone "u10" "9000000009" ""]).countP
          (fun u => u.phoneNumber == "9000000009") := by
  have H := user_lookup_page_mismatch_c10 c10users [] none "9000000009" "" "u10" "s10" 0
    (by decide) ⟨⟨"t", "9000000009", "", true⟩, by decide, rfl⟩ (Or.inl rfl)
  exact ⟨by decide, H.1, H.2.1, H.2.2.1, H.2.2.2⟩

end BolisettiAuth
